import Mathlib

/-!
# Verification of the nexus-next device session engine

Shallow embedding, in Lean 4, of the core of the `nexus-next` repository:
the chunked USB transport encoder (`sendImageDataInChunks` in
`nexus/display.go`), the connection manager (`ConnectNexus`,
`attemptReconnection` in `nexus/connectnexus.go`), the display event loop
(`StartDisplayUpdate`, `resetDevice` in `nexus/display.go`) and the image
context construction (`CreateImageContext`, `parseColor` in
`nexus/draw.go`).  Go loops are embedded as structurally recursive
functions on an explicit fuel argument that equals the loop's iteration
bound; Go byte slices are embedded as functions from index to byte value
(`Buf`), with the emitted wire chunks snapshotted to lists of bytes.
-/

namespace Nexus

/-! ## Constants (nexus/nexus.go) -/

/-- Display width in pixels (`width = 640`). -/
def width : Nat := 640

/-- Display height in pixels (`height = 48`). -/
def height : Nat := 48

/-- Total number of pixels written by the encoder's inner loop bound
(`num2 < 30720` in `sendImageDataInChunks`), equal to `width * height`. -/
def totalPixels : Nat := 30720

/-- Size in bytes of a full frame: `width * height * 4 = 122880`. -/
def frameSize : Nat := width * height * 4

/-! ## Byte buffers

A Go byte slice is embedded as a total function from byte index to byte
value; `updBuf` is a single store. -/

/-- A byte buffer: index to byte value. -/
def Buf : Type := Nat → Nat

/-- Store `v` at index `i` of buffer `b`. -/
def updBuf (b : Buf) (i v : Nat) : Buf := fun j => if j = i then v else b j

theorem updBuf_same (b : Buf) (i v : Nat) : updBuf b i v i = v := by
  simp [updBuf]

theorem updBuf_other (b : Buf) (i v j : Nat) (h : j ≠ i) : updBuf b i v j = b j := by
  simp [updBuf, h]

/-! ## Transport encoder: chunk data (`sendImageDataInChunks`, display.go 261-293)

The Go code allocates one 4096-byte buffer `data`, writes the fixed
header bytes once, and then, for `i = 0..120`, overwrites the per-chunk
header fields and copies pixels into it before writing the whole buffer
to the endpoint.  The buffer is reused across chunks without clearing. -/

/-- The `data` buffer right after `make([]byte, 1024*4)` and the eight
header stores (display.go 261-269): bytes 0..7 are 2,5,31,0,0,0,248,3 and
everything else is zero. -/
def initData : Buf := fun j =>
  if j = 0 then 2
  else if j = 1 then 5
  else if j = 2 then 31
  else if j = 3 then 0
  else if j = 4 then 0
  else if j = 5 then 0
  else if j = 6 then 248
  else if j = 7 then 3
  else 0

/-- Per-chunk header stores at the top of the chunk loop (display.go
275-282): `data[4] = i`, then `data[3], data[6]` depending on whether
`i` is the final chunk index 120. -/
def setHeader (b : Buf) (i : Nat) : Buf :=
  let b1 := updBuf b 4 i
  if i ≠ 120 then updBuf (updBuf b1 3 0) 6 248
  else updBuf (updBuf b1 3 1) 6 192

/-- Inner pixel-copy loop (display.go 287-293):
`for num := 0; num < 255 && num2 < 30720; num++ { ... }`.
`fuel = 255 - num` counts the remaining iterations allowed by the
`num < 255` conjunct; `num` and `num2` are the loop variables.  Each
iteration stores, at byte offset `8 + num*4`, the bytes
`img (num2*4+2), img (num2*4+1), img (num2*4), 255` (BGRA with alpha
forced opaque). -/
def copyPixelsAux (img : Buf) : Nat → Nat → Nat → Buf → Buf
  | 0, _, _, b => b
  | fuel + 1, num, num2, b =>
    if num2 < totalPixels then
      let b1 := updBuf b (8 + num * 4) (img (num2 * 4 + 2))
      let b2 := updBuf b1 (8 + num * 4 + 1) (img (num2 * 4 + 1))
      let b3 := updBuf b2 (8 + num * 4 + 2) (img (num2 * 4))
      let b4 := updBuf b3 (8 + num * 4 + 3) 255
      copyPixelsAux img fuel (num + 1) (num2 + 1) b4
    else b

/-- The inner loop entered with `num = 0`, `num2 = start` (display.go
284: `num2 := i * 254`). -/
def copyPixels (img : Buf) (b : Buf) (start : Nat) : Buf :=
  copyPixelsAux img 255 0 start b

/-- Number of iterations performed by the inner pixel-copy loop, with
the same guard `num < 255 && num2 < 30720` (fuel = `255 - num`). -/
def copyCountAux : Nat → Nat → Nat
  | 0, _ => 0
  | fuel + 1, num2 => if num2 < totalPixels then copyCountAux fuel (num2 + 1) + 1 else 0

/-- Number of pixels copied into chunk `i`: the inner loop is entered
with `num = 0` and `num2 = i * 254`. -/
def pixelsCopied (i : Nat) : Nat := copyCountAux 255 (i * 254)

/-- Snapshot of the 4096-byte `data` buffer as written to the endpoint
(`writer.Write(data)` writes the whole slice). -/
def chunkBytes (b : Buf) : List Nat := (List.range (1024 * 4)).map b

/-- The chunk loop `for i := 0; i <= 120; i++` (display.go 274-306),
with `fuel = 121 - i`: set the per-chunk header, copy pixels starting at
pixel index `i * 254`, emit the buffer, and continue with the same
(reused, uncleared) buffer. -/
def sendChunksAux (img : Buf) : Nat → Nat → Buf → List (List Nat)
  | 0, _, _ => []
  | fuel + 1, i, b =>
    let b2 := copyPixels img (setHeader b i) (i * 254)
    chunkBytes b2 :: sendChunksAux img fuel (i + 1) b2

/-- The sequence of 4096-byte chunks written to the device for frame
`img`: the loop runs from `i = 0` with the freshly initialised buffer. -/
def sendChunks (img : Buf) : List (List Nat) := sendChunksAux img 121 0 initData

/-- Buffer state before processing chunk `i` (the reused `data` buffer):
`chunkState img 0` is the freshly initialised buffer, and chunk `i`'s
emitted bytes are `chunkBytes (chunkState img (i+1))`. -/
def chunkState (img : Buf) : Nat → Buf
  | 0 => initData
  | i + 1 => copyPixels img (setHeader (chunkState img i) i) (i * 254)

/-! ## Lemmas about the encoder loops -/

set_option maxRecDepth 4000

theorem copyCountAux_eq (fuel : Nat) : ∀ num2,
    copyCountAux fuel num2 = min fuel (totalPixels - num2) := by
  induction fuel with
  | zero => intro num2; simp [copyCountAux]
  | succ fuel ih =>
    intro num2
    simp only [copyCountAux]
    split
    · rw [ih]; omega
    · omega

/-- Closed form for the number of pixels copied into chunk `i`. -/
theorem pixelsCopied_eq (i : Nat) :
    pixelsCopied i = min 255 (totalPixels - i * 254) :=
  copyCountAux_eq 255 (i * 254)

/-- The inner pixel loop never writes below byte offset `8 + num*4`; in
particular, entered at `num = 0`, it never touches the 8-byte header. -/
theorem copyPixelsAux_lt (img : Buf) : ∀ fuel num num2 b j, j < 8 + num * 4 →
    copyPixelsAux img fuel num num2 b j = b j := by
  intro fuel
  induction fuel with
  | zero => intro num num2 b j _; rfl
  | succ fuel ih =>
    intro num num2 b j hj
    simp only [copyPixelsAux]
    split
    · rw [ih (num + 1) (num2 + 1) _ j (by omega),
        updBuf_other _ _ _ _ (by omega), updBuf_other _ _ _ _ (by omega),
        updBuf_other _ _ _ _ (by omega), updBuf_other _ _ _ _ (by omega)]
    · rfl

/-- Values written by the inner pixel loop: for the `k`-th iteration
still allowed by the fuel, the bytes at offsets `8 + (num+k)*4 + 0..3`
of the final buffer are `B, G, R, 255` of source pixel `num2 + k`. -/
theorem copyPixelsAux_pixel (img : Buf) : ∀ fuel num num2 b k, k < fuel →
    num2 + k < totalPixels →
    copyPixelsAux img fuel num num2 b (8 + (num + k) * 4) = img ((num2 + k) * 4 + 2) ∧
    copyPixelsAux img fuel num num2 b (8 + (num + k) * 4 + 1) = img ((num2 + k) * 4 + 1) ∧
    copyPixelsAux img fuel num num2 b (8 + (num + k) * 4 + 2) = img ((num2 + k) * 4) ∧
    copyPixelsAux img fuel num num2 b (8 + (num + k) * 4 + 3) = 255 := by
  intro fuel
  induction fuel with
  | zero => intro num num2 b k hk; omega
  | succ fuel ih =>
    intro num num2 b k hk htot
    have hguard : num2 < totalPixels := by omega
    simp only [copyPixelsAux, if_pos hguard]
    cases k with
    | zero =>
      refine ⟨?_, ?_, ?_, ?_⟩ <;>
        rw [copyPixelsAux_lt img fuel (num + 1) (num2 + 1) _ _ (by omega)] <;>
        simp [updBuf]
    | succ k =>
      have h1 : num + (k + 1) = (num + 1) + k := by omega
      have h2 : num2 + (k + 1) = (num2 + 1) + k := by omega
      rw [h1, h2]
      exact ih (num + 1) (num2 + 1) _ k (by omega) (by omega)

/-- The buffer reused across chunks agrees with the per-chunk header
stores below offset 8: the pixel loop never writes there. -/
theorem chunkState_succ_low (img : Buf) (i j : Nat) (hj : j < 8) :
    chunkState img (i + 1) j = setHeader (chunkState img i) i j := by
  show copyPixels img (setHeader (chunkState img i) i) (i * 254) j = _
  exact copyPixelsAux_lt img 255 0 (i * 254) _ j (by omega)

theorem setHeader_other (b : Buf) (i j : Nat) (h3 : j ≠ 3) (h4 : j ≠ 4) (h6 : j ≠ 6) :
    setHeader b i j = b j := by
  unfold setHeader
  split <;>
    rw [updBuf_other _ _ _ _ h6, updBuf_other _ _ _ _ h3, updBuf_other _ _ _ _ h4]

theorem setHeader_at3 (b : Buf) (i : Nat) :
    setHeader b i 3 = (if i = 120 then 1 else 0) := by
  unfold setHeader
  by_cases h : i = 120 <;> simp [h, updBuf]

theorem setHeader_at4 (b : Buf) (i : Nat) : setHeader b i 4 = i := by
  unfold setHeader
  by_cases h : i = 120 <;> simp [h, updBuf]

theorem setHeader_at6 (b : Buf) (i : Nat) :
    setHeader b i 6 = (if i = 120 then 192 else 248) := by
  unfold setHeader
  by_cases h : i = 120 <;> simp [h, updBuf]

/-- The fixed header bytes (0,1,2,5,7) survive every chunk iteration:
they are set once at initialisation and never overwritten. -/
theorem chunkState_fixed (img : Buf) : ∀ i,
    chunkState img i 0 = 2 ∧ chunkState img i 1 = 5 ∧ chunkState img i 2 = 31 ∧
    chunkState img i 5 = 0 ∧ chunkState img i 7 = 3 := by
  intro i
  induction i with
  | zero => exact ⟨rfl, rfl, rfl, rfl, rfl⟩
  | succ i ih =>
    obtain ⟨h0, h1, h2, h5, h7⟩ := ih
    refine ⟨?_, ?_, ?_, ?_, ?_⟩ <;>
      rw [chunkState_succ_low img i _ (by omega),
        setHeader_other _ _ _ (by omega) (by omega) (by omega)] <;>
      assumption

/-- The per-chunk header bytes of the buffer as emitted for chunk `i`. -/
theorem chunkState_header (img : Buf) (i : Nat) :
    chunkState img (i + 1) 4 = i ∧
    chunkState img (i + 1) 3 = (if i = 120 then 1 else 0) ∧
    chunkState img (i + 1) 6 = (if i = 120 then 192 else 248) := by
  refine ⟨?_, ?_, ?_⟩ <;> rw [chunkState_succ_low img i _ (by omega)]
  · exact setHeader_at4 _ i
  · exact setHeader_at3 _ i
  · exact setHeader_at6 _ i

/-- Pixel bytes of the buffer as emitted for chunk `p / 254`: source
pixel `p` lands at byte offset `8 + (p % 254) * 4`, reordered to BGRA
with alpha forced to 255. -/
theorem chunkState_pixel (img : Buf) (p : Nat) (hp : p < totalPixels) :
    chunkState img (p / 254 + 1) (8 + p % 254 * 4) = img (p * 4 + 2) ∧
    chunkState img (p / 254 + 1) (8 + p % 254 * 4 + 1) = img (p * 4 + 1) ∧
    chunkState img (p / 254 + 1) (8 + p % 254 * 4 + 2) = img (p * 4) ∧
    chunkState img (p / 254 + 1) (8 + p % 254 * 4 + 3) = 255 := by
  have hsplit : p / 254 * 254 + p % 254 = p := by omega
  have hmod : p % 254 < 255 := by omega
  have h := copyPixelsAux_pixel img 255 0 (p / 254 * 254)
    (setHeader (chunkState img (p / 254)) (p / 254)) (p % 254) hmod
    (by omega)
  rw [Nat.zero_add, hsplit] at h
  exact h

theorem sendChunksAux_chunkState (img : Buf) : ∀ fuel i,
    sendChunksAux img fuel i (chunkState img i) =
      (List.range' i fuel).map (fun k => chunkBytes (chunkState img (k + 1))) := by
  intro fuel
  induction fuel with
  | zero => intro i; rfl
  | succ fuel ih =>
    intro i
    rw [List.range'_succ, List.map_cons]
    show chunkBytes (chunkState img (i + 1)) ::
        sendChunksAux img fuel (i + 1) (chunkState img (i + 1)) = _
    rw [ih (i + 1)]

/-- The emitted chunk sequence, indexed: chunk `k` is the snapshot of
the reused buffer after processing chunk index `k`. -/
theorem sendChunks_eq (img : Buf) :
    sendChunks img = (List.range' 0 121).map (fun k => chunkBytes (chunkState img (k + 1))) :=
  sendChunksAux_chunkState img 121 0

theorem sendChunks_length (img : Buf) : (sendChunks img).length = 121 := by
  rw [sendChunks_eq]
  simp

theorem chunkBytes_length (b : Buf) : (chunkBytes b).length = 4096 := by
  simp [chunkBytes]

theorem chunkBytes_get (b : Buf) (j : Nat) (hj : j < 4096) :
    (chunkBytes b)[j]? = some (b j) := by
  have hj' : j < 1024 * 4 := by omega
  simp [chunkBytes, List.getElem?_map, List.getElem?_range, hj']

theorem sendChunks_get (img : Buf) (i : Nat) (hi : i < 121) :
    (sendChunks img)[i]? = some (chunkBytes (chunkState img (i + 1))) := by
  rw [sendChunks_eq, List.getElem?_map, List.getElem?_range'] <;> simp [hi]

/-- An all-zero frame, used to instantiate universally quantified results. -/
def zeroFrame : Buf := fun _ => 0

/-- A frame with distinct recognisable byte values. -/
def sampleFrame : Buf := fun j => j % 256

/-! ## Claim theorems: transport encoder -/

/-- C1 (counterexample): the claim says each chunk copies up to 254
pixels, but the inner loop guard in `sendImageDataInChunks` is
`num < 255 && num2 < 30720`, so chunk 0 copies 255 pixels (it overlaps
one pixel with chunk 1's range). -/
theorem chunk_copy_count_counterexample :
    pixelsCopied 0 = 255 ∧ ¬ pixelsCopied 0 ≤ 254 := by
  constructor <;> decide

/-- C1 (amended): the encoder splits the frame into exactly 121 chunks
(indices 0..120); chunk `i`'s source range starts at pixel `i * 254`
and copies up to 255 pixels (not 254 — consecutive chunks overlap by
one pixel), stopping early when the global pixel index reaches 30720;
the final chunk (index 120) copies exactly 240 pixels while still
occupying a full fixed-size 4096-byte buffer. -/
theorem chunk_split_amended (img : Buf) (i : Nat) (hi : i ≤ 120) :
    (sendChunks img).length = 121 ∧
    pixelsCopied i = min 255 (totalPixels - i * 254) ∧
    pixelsCopied i = (if i = 120 then 240 else 255) ∧
    ∃ ch, (sendChunks img)[120]? = some ch ∧ ch.length = 4096 := by
  have ht : totalPixels = 30720 := rfl
  refine ⟨sendChunks_length img, pixelsCopied_eq i, ?_, ?_⟩
  · rw [pixelsCopied_eq]
    split <;> omega
  · exact ⟨_, sendChunks_get img 120 (by omega), chunkBytes_length _⟩

theorem chunk_split_amended_witness :
    (sendChunks zeroFrame).length = 121 ∧
    pixelsCopied 120 = min 255 (totalPixels - 120 * 254) ∧
    pixelsCopied 120 = (if 120 = 120 then 240 else 255) ∧
    ∃ ch, (sendChunks zeroFrame)[120]? = some ch ∧ ch.length = 4096 :=
  chunk_split_amended zeroFrame 120 (by decide)

/-- C2: for every frame, `sendImageDataInChunks` emits exactly 121
chunks of exactly 4096 bytes each, where chunk `i`'s 8-byte header has
byte0=2, byte1=5, byte2=31, byte4=i, byte5=0, byte7=3, and byte3=0 with
byte6=248 for chunks 0..119 versus byte3=1 with byte6=192 for chunk
120. -/
theorem encode_chunk_format (img : Buf) (i : Nat) (hi : i < 121) :
    (sendChunks img).length = 121 ∧
    ∃ ch, (sendChunks img)[i]? = some ch ∧ ch.length = 4096 ∧
      ch[0]? = some 2 ∧ ch[1]? = some 5 ∧ ch[2]? = some 31 ∧ ch[4]? = some i ∧
      ch[5]? = some 0 ∧ ch[7]? = some 3 ∧
      ch[3]? = some (if i = 120 then 1 else 0) ∧
      ch[6]? = some (if i = 120 then 192 else 248) := by
  obtain ⟨h0, h1, h2, h5, h7⟩ := chunkState_fixed img (i + 1)
  obtain ⟨g4, g3, g6⟩ := chunkState_header img i
  refine ⟨sendChunks_length img, _, sendChunks_get img i hi, chunkBytes_length _,
    ?_, ?_, ?_, ?_, ?_, ?_, ?_, ?_⟩
  · rw [chunkBytes_get _ _ (by omega), h0]
  · rw [chunkBytes_get _ _ (by omega), h1]
  · rw [chunkBytes_get _ _ (by omega), h2]
  · rw [chunkBytes_get _ _ (by omega), g4]
  · rw [chunkBytes_get _ _ (by omega), h5]
  · rw [chunkBytes_get _ _ (by omega), h7]
  · rw [chunkBytes_get _ _ (by omega), g3]
  · rw [chunkBytes_get _ _ (by omega), g6]

theorem encode_chunk_format_witness :
    (sendChunks zeroFrame).length = 121 ∧
    ∃ ch, (sendChunks zeroFrame)[120]? = some ch ∧ ch.length = 4096 ∧
      ch[0]? = some 2 ∧ ch[1]? = some 5 ∧ ch[2]? = some 31 ∧ ch[4]? = some 120 ∧
      ch[5]? = some 0 ∧ ch[7]? = some 3 ∧
      ch[3]? = some (if 120 = 120 then 1 else 0) ∧
      ch[6]? = some (if 120 = 120 then 192 else 248) :=
  encode_chunk_format zeroFrame 120 (by decide)

/-- C3: for every frame and every pixel index `p < 30720` with RGBA
bytes `(R,G,B,A) = (img (4p), img (4p+1), img (4p+2), img (4p+3))`, the
emitted chunk with index `p / 254` holds `(B, G, R, 255)` at byte
offset `8 + (p % 254) * 4`. -/
theorem pixel_roundtrip (img : Buf) (p : Nat) (hp : p < totalPixels) :
    ∃ ch, (sendChunks img)[p / 254]? = some ch ∧
      ch[8 + p % 254 * 4]? = some (img (p * 4 + 2)) ∧
      ch[8 + p % 254 * 4 + 1]? = some (img (p * 4 + 1)) ∧
      ch[8 + p % 254 * 4 + 2]? = some (img (p * 4)) ∧
      ch[8 + p % 254 * 4 + 3]? = some 255 := by
  have ht : totalPixels = 30720 := rfl
  have hdiv : p / 254 < 121 := by omega
  obtain ⟨e0, e1, e2, e3⟩ := chunkState_pixel img p hp
  refine ⟨_, sendChunks_get img _ hdiv, ?_, ?_, ?_, ?_⟩
  · rw [chunkBytes_get _ _ (by omega), e0]
  · rw [chunkBytes_get _ _ (by omega), e1]
  · rw [chunkBytes_get _ _ (by omega), e2]
  · rw [chunkBytes_get _ _ (by omega), e3]

theorem pixel_roundtrip_witness :
    ∃ ch, (sendChunks sampleFrame)[30719 / 254]? = some ch ∧
      ch[8 + 30719 % 254 * 4]? = some (sampleFrame (30719 * 4 + 2)) ∧
      ch[8 + 30719 % 254 * 4 + 1]? = some (sampleFrame (30719 * 4 + 1)) ∧
      ch[8 + 30719 % 254 * 4 + 2]? = some (sampleFrame (30719 * 4)) ∧
      ch[8 + 30719 % 254 * 4 + 3]? = some 255 :=
  pixel_roundtrip sampleFrame 30719 (by decide)

/-! ## Connection manager (nexus/connectnexus.go) -/

/-- Outcomes of the USB operations performed by one `ConnectNexus()`
call, in program order: `OpenDevices`, the number of devices matching
the fixed vendor/product pair, `SetAutoDetach`, `Config(1)` and
`Interface(0, 0)`. -/
structure ConnectEnv where
  openDevicesErr : Option String
  matchingDevices : Nat
  autoDetachErr : Option String
  configErr : Option String
  interfaceErr : Option String

/-- Result of `ConnectNexus()`.  `fatal` models `log.Fatalf`, which
terminates the whole process; `noDevice` models the `nil` return when
zero matching devices are attached; `ok` models returning the opened
device with the global interface set. -/
inductive ConnectResult where
  | noDevice : ConnectResult
  | fatal : String → ConnectResult
  | ok : ConnectResult
deriving DecidableEq

/-- `ConnectNexus` (connectnexus.go 41-80): open matching devices
(`log.Fatalf` on error), return `nil` when zero match, then
`SetAutoDetach(true)`, `Config(1)` and `Interface(0, 0)`, each of which
calls `log.Fatalf` on failure. -/
def ConnectNexus (env : ConnectEnv) : ConnectResult :=
  match env.openDevicesErr with
  | some e => .fatal ("Failed to open devices: " ++ e)
  | none =>
    if env.matchingDevices = 0 then .noDevice
    else
      match env.autoDetachErr with
      | some e => .fatal ("Failed to set auto detach: " ++ e)
      | none =>
        match env.configErr with
        | some e => .fatal ("Failed to get config: " ++ e)
        | none =>
          match env.interfaceErr with
          | some e => .fatal ("Failed to get interface: " ++ e)
          | none => .ok

/-- Whether a `ConnectNexus` outcome is a `log.Fatalf` process
termination. -/
def ConnectResult.isFatal : ConnectResult → Bool
  | .fatal _ => true
  | _ => false

/-- C4 (counterexample): with one matching device and a failing
`Config(1)` step, `ConnectNexus` reaches `log.Fatalf` — the process
terminates instead of a recoverable `DeviceInitError` being propagated
to the caller for a later retry, refuting the claim for this input. -/
theorem connect_fatal_counterexample :
    ConnectNexus ⟨none, 1, none, some ("boom"), none⟩ =
      ConnectResult.fatal ("Failed to get config: boom") ∧
    (ConnectNexus ⟨none, 1, none, some ("boom"), none⟩).isFatal = true :=
  ⟨rfl, rfl⟩

/-- C4 (amended): `Connect` returns the no-device result (no device, no
handle) exactly when zero attached devices match the fixed
vendor/product identifier pair; but a failure of any subsequent step
(kernel auto-detach request, configuration index 1, interface claim)
terminates the process via `log.Fatalf` instead of being propagated to
the caller as a recoverable error. -/
theorem connect_amended (env : ConnectEnv) (h : env.openDevicesErr = none) :
    (env.matchingDevices = 0 → ConnectNexus env = ConnectResult.noDevice) ∧
    (env.matchingDevices ≠ 0 →
      ((ConnectNexus env).isFatal = true ↔
        (env.autoDetachErr ≠ none ∨ env.configErr ≠ none ∨ env.interfaceErr ≠ none))) := by
  obtain ⟨o, m, a, c, i⟩ := env
  simp only at h
  subst h
  constructor
  · intro hm
    have hm' : m = 0 := hm
    subst hm'
    rfl
  · intro hm
    have hm' : m ≠ 0 := hm
    cases a <;> cases c <;> cases i <;>
      simp [ConnectNexus, hm', ConnectResult.isFatal]

theorem connect_amended_witness :
    ConnectNexus ⟨none, 0, none, none, none⟩ = ConnectResult.noDevice :=
  (connect_amended ⟨none, 0, none, none, none⟩ rfl).1 rfl

/-- Observable effects of one `attemptReconnection` call: how many
`ConnectNexus` attempts ran, the `time.Sleep` backoff durations in
seconds, and the final `connected` flag. -/
structure ReconnectOutcome where
  attemptsMade : Nat
  sleeps : List Nat
  connected : Bool
deriving DecidableEq

/-- The retry loop `for i := 0; i < maxRetries; i++` of
`attemptReconnection` (connectnexus.go 126-142), with
`fuel = maxRetries - i`: a successful `ConnectNexus` returns at once
with `connected = true`; a failed attempt sleeps
`time.Duration(1 << uint(i)) * time.Second` when `i < maxRetries-1` and
continues; an exhausted loop gives up with `connected` still false. -/
def reconnectLoop (attempt : Nat → Bool) (maxRetries : Nat) : Nat → Nat → ReconnectOutcome
  | 0, _ => ⟨0, [], false⟩
  | fuel + 1, i =>
    if attempt i then ⟨1, [], true⟩
    else
      let rest := reconnectLoop attempt maxRetries fuel (i + 1)
      ⟨rest.attemptsMade + 1,
        (if i < maxRetries - 1 then [2 ^ i] else []) ++ rest.sleeps,
        rest.connected⟩

/-- `attemptReconnection(maxRetries)` given the success/failure of each
`ConnectNexus` attempt. -/
def attemptReconnection (attempt : Nat → Bool) (maxRetries : Nat) : ReconnectOutcome :=
  reconnectLoop attempt maxRetries maxRetries 0

theorem reconnectLoop_firstSuccess (att : Nat → Bool) (m : Nat) : ∀ j fuel i, j < fuel →
    att (i + j) = true → (∀ k, k < j → att (i + k) = false) →
    (reconnectLoop att m fuel i).attemptsMade = j + 1 ∧
    (reconnectLoop att m fuel i).connected = true := by
  intro j
  induction j with
  | zero =>
    intro fuel i hj hsucc _
    cases fuel with
    | zero => omega
    | succ fuel =>
      rw [Nat.add_zero] at hsucc
      simp [reconnectLoop, hsucc]
  | succ j ih =>
    intro fuel i hj hsucc hprev
    cases fuel with
    | zero => omega
    | succ fuel =>
      have h0 : att i = false := by simpa using hprev 0 (by omega)
      have ihr := ih fuel (i + 1) (by omega)
        (by rw [show i + 1 + j = i + (j + 1) by omega]; exact hsucc)
        (fun k hk => by
          rw [show i + 1 + k = i + (k + 1) by omega]
          exact hprev (k + 1) (by omega))
      simp [reconnectLoop, h0, ihr.1, ihr.2]

/-- C5: a fully-failing reconnection sequence performs exactly 10
attempts with the nine sleeps 1,2,4,8,16,32,64,128,256 seconds between
consecutive attempts and gives up with `connected` still false; and any
sequence whose first success is attempt `j+1` (`j < 10`) stops early
after `j+1` attempts with `connected = true`. -/
theorem reconnect_backoff (attempt : Nat → Bool)
    (hfail : ∀ i, i < 10 → attempt i = false) :
    attemptReconnection attempt 10 =
      ⟨10, [1, 2, 4, 8, 16, 32, 64, 128, 256], false⟩ ∧
    ∀ (att : Nat → Bool) (j : Nat), j < 10 → att j = true →
      (∀ k, k < j → att k = false) →
      (attemptReconnection att 10).attemptsMade = j + 1 ∧
      (attemptReconnection att 10).connected = true := by
  constructor
  · simp [attemptReconnection, reconnectLoop, hfail]
  · intro att j hj hsucc hprev
    exact reconnectLoop_firstSuccess att 10 j 10 0 hj (by simpa using hsucc)
      (fun k hk => by simpa using hprev k hk)

theorem reconnect_backoff_witness :
    attemptReconnection (fun _ => false) 10 =
      ⟨10, [1, 2, 4, 8, 16, 32, 64, 128, 256], false⟩ :=
  (reconnect_backoff (fun _ => false) (fun _ _ => rfl)).1

/-- Global handle state around a reconnection: the value of the global
`device` pointer, the `connected` flag, and the handles on which
`Close()` has been called so far (most recent first). -/
structure HandleState where
  device : Option Nat
  connected : Bool
  closed : List Nat
deriving DecidableEq

/-- The assignment `device = devices[0]` inside `ConnectNexus`
(connectnexus.go 58): on the successful path the global `device` is
overwritten with the newly opened handle before the function returns
it. -/
def connectNexusAssign (newHandle : Nat) (s : HandleState) : Nat × HandleState :=
  (newHandle, { s with device := some newHandle })

/-- The success branch of `attemptReconnection` (connectnexus.go
127-134): `newDevice := ConnectNexus()` (which assigns the global
`device`), then `if device != nil { device.Close() }`, then
`device = newDevice; connected = true`. -/
def reconnectSuccessStep (newHandle : Nat) (s : HandleState) : HandleState :=
  let r := connectNexusAssign newHandle s
  let newDevice := r.1
  let s1 := r.2
  let s2 :=
    match s1.device with
    | some d => { s1 with closed := d :: s1.closed }
    | none => s1
  { s2 with device := some newDevice, connected := true }

/-- C8 (code behaviour at the failing input): reconnecting from an old
open handle 1 to a new handle 2 closes handle 2 — the one just
connected — because `ConnectNexus` has already overwritten the global
`device` with it, and handle 1 is never closed.  The session ends up
holding an already-closed handle while the old one leaks, contrary to
the claim (and to `attemptReconnection`'s own doc comment) that the
pre-existing handle is the one closed before replacement. -/
theorem reconnect_close_bug :
    reconnectSuccessStep 2 ⟨some 1, false, []⟩ = ⟨some 2, true, [2]⟩ ∧
    1 ∉ (reconnectSuccessStep 2 ⟨some 1, false, []⟩).closed := by
  constructor
  · rfl
  · decide

/-! ## Transport control flow and error classification
(`sendImageDataInChunks`, display.go 243-314) -/

/-- Outcomes of the USB operations of one `sendImageDataInChunks` call:
the `OutEndpoint(2)` error, the error returned by the `i`-th chunk
`writer.Write`, and the `Flush` error. -/
structure TransportEnv where
  outEndpointErr : Option String
  writeErr : Nat → Option String
  flushErr : Option String

/-- Result of `sendImageDataInChunks`: `ok` models returning `nil`. -/
inductive SendResult where
  | ok : SendResult
  | error : String → SendResult
deriving DecidableEq

/-- The literal error string matched at display.go 301. -/
def deviceDisconnectedMsg : String := "libusb: device was disconnected"

/-- The chunk-writing loop of `sendImageDataInChunks` at the level of
write outcomes, with `fuel = 121 - i`: a failing chunk write sets
`connected = false` and classifies the error string — the literal
device-disconnected message returns `nil`, anything else returns an
error; when all writes succeed, `Flush` runs.  The pair is the function
result and the `connected` flag after the call (the loop is only
entered with `connected = true`, and only a write error mutates it). -/
def writeLoop (env : TransportEnv) : Nat → Nat → SendResult × Bool
  | 0, _ =>
    match env.flushErr with
    | some e => (.error ("failed to flush data: " ++ e), true)
    | none => (.ok, true)
  | fuel + 1, i =>
    match env.writeErr i with
    | some e =>
      if e = deviceDisconnectedMsg then (.ok, false)
      else (.error ("failed to write data: " ++ e), false)
    | none => writeLoop env fuel (i + 1)

/-- `sendImageDataInChunks` (display.go 243-314) as a function of the
`connected` flag, the incoming buffer length and the USB outcomes:
not connected returns `nil` at once; then the length check; then
`OutEndpoint(2)`; then the 121-chunk write loop. -/
def sendImageData (connected : Bool) (imageDataLen : Nat) (env : TransportEnv) :
    SendResult × Bool :=
  if !connected then (.ok, connected)
  else if imageDataLen ≠ width * height * 4 then
    (.error ("incoming image data length mismatch"), connected)
  else
    match env.outEndpointErr with
    | some e => (.error ("OutEndpoint(2): " ++ e), connected)
    | none => writeLoop env 121 0

theorem writeLoop_firstErr (env : TransportEnv) (e : String) : ∀ k fuel i, k < fuel →
    (∀ j, j < k → env.writeErr (i + j) = none) → env.writeErr (i + k) = some e →
    writeLoop env fuel i =
      (if e = deviceDisconnectedMsg then SendResult.ok
        else SendResult.error ("failed to write data: " ++ e), false) := by
  intro k
  induction k with
  | zero =>
    intro fuel i hk hprev herr
    cases fuel with
    | zero => omega
    | succ fuel =>
      rw [Nat.add_zero] at herr
      simp only [writeLoop, herr]
      split <;> rfl
  | succ k ih =>
    intro fuel i hk hprev herr
    cases fuel with
    | zero => omega
    | succ fuel =>
      have h0 : env.writeErr i = none := by simpa using hprev 0 (by omega)
      simp only [writeLoop, h0]
      exact ih fuel (i + 1) (by omega)
        (fun j hj => by
          rw [show i + 1 + j = i + (j + 1) by omega]
          exact hprev (j + 1) (by omega))
        (by rw [show i + 1 + k = i + (k + 1) by omega]; exact herr)

/-- C6: while connected with a correctly-sized frame, when the first
failing chunk write (index `i`) fails with error string `e`, the error
is classified: the literal "libusb: device was disconnected" string
makes the call return success (`nil`) while `connected` flips to false;
any other error string is surfaced as an error, and `connected` also
flips to false. -/
theorem write_error_classification (env : TransportEnv) (e : String) (i : Nat)
    (hi : i < 121) (hout : env.outEndpointErr = none)
    (hprev : ∀ j, j < i → env.writeErr j = none)
    (herr : env.writeErr i = some e) :
    sendImageData true frameSize env =
      (if e = deviceDisconnectedMsg then SendResult.ok
        else SendResult.error ("failed to write data: " ++ e), false) := by
  have h := writeLoop_firstErr env e i 121 0 hi
    (fun j hj => by simpa using hprev j hj) (by simpa using herr)
  simpa [sendImageData, hout, frameSize] using h

/-- A transport environment whose first chunk write fails with the
device-disconnected error string. -/
def disconnectEnv : TransportEnv :=
  ⟨none, fun j => if j = 0 then some deviceDisconnectedMsg else none, none⟩

theorem write_error_classification_witness :
    sendImageData true frameSize disconnectEnv =
      (if deviceDisconnectedMsg = deviceDisconnectedMsg then SendResult.ok
        else SendResult.error ("failed to write data: " ++ deviceDisconnectedMsg), false) :=
  write_error_classification disconnectEnv deviceDisconnectedMsg 0 (by decide)
    rfl (fun j hj => absurd hj (Nat.not_lt_zero j)) rfl

/-- C10: when `connected` is false, `sendImageDataInChunks` returns
success immediately for a buffer of any length (the connectivity check
precedes the size check, so no size validation happens), and the
size-mismatch error is returned when connected with a wrong-sized
buffer. -/
theorem disconnected_noop (env : TransportEnv) (len : Nat) :
    sendImageData false len env = (SendResult.ok, false) ∧
    (len ≠ width * height * 4 →
      sendImageData true len env =
        (SendResult.error ("incoming image data length mismatch"), true)) := by
  constructor
  · rfl
  · intro h
    simp [sendImageData, h]

theorem disconnected_noop_witness :
    sendImageData false 5 disconnectEnv = (SendResult.ok, false) ∧
    sendImageData true 5 disconnectEnv =
      (SendResult.error ("incoming image data length mismatch"), true) :=
  ⟨(disconnected_noop disconnectEnv 5).1, (disconnected_noop disconnectEnv 5).2 (by decide)⟩

/-! ## Display event loop (`StartDisplayUpdate`, display.go 84-127) -/

/-- Shared session state seen by the display loop: the global `device`
handle and `connected` flag. -/
structure SessionState where
  device : Option Nat
  connected : Bool
deriving DecidableEq

/-- `resetDevice` (display.go 178-188): close any existing handle, null
it and flip `connected` to false. -/
def resetDevice (_s : SessionState) : SessionState := ⟨none, false⟩

/-- `updateDisplay` together with `drawDisplay` (display.go 141-241) at
the level of connection state: returns `nil` without effect when not
connected or the handle is nil; otherwise, when the render+transmit
cycle fails, `drawDisplay` sets `connected = false` and returns an
error — the handle itself is not touched here. -/
def updateDisplay (fails : Bool) (s : SessionState) : Option String × SessionState :=
  if s.connected = false ∨ s.device = none then (none, s)
  else if fails then (some ("failed to update display"), { s with connected := false })
  else (none, s)

/-- The five cases of the `select` in the `StartDisplayUpdate` loop. -/
inductive DisplayEvent where
  | tempUpdate : DisplayEvent
  | networkUpdate : DisplayEvent
  | weatherUpdate : DisplayEvent
  | configUpdate : DisplayEvent
  | tick : DisplayEvent
deriving DecidableEq

/-- One iteration of the `StartDisplayUpdate` event loop (display.go
84-126) acting on the session state, given whether the render+transmit
cycle fails: temperature/network merges do not render; a (non-nil)
weather update and a configuration update call `updateDisplay` and only
log a failure; the ticker case calls `updateDisplay` and on failure
also calls `resetDevice`. -/
def handleEvent (ev : DisplayEvent) (fails : Bool) (s : SessionState) : SessionState :=
  match ev with
  | .tempUpdate => s
  | .networkUpdate => s
  | .weatherUpdate => (updateDisplay fails s).2
  | .configUpdate => (updateDisplay fails s).2
  | .tick =>
    match updateDisplay fails s with
    | (some _, s1) => resetDevice s1
    | (none, s1) => s1

/-- C7 (counterexample): a failing render+transmit cycle triggered by a
weather update does not reset the device — the handle stays non-null
(only `connected` is flipped, by the transport layer) — refuting the
claim that the reset happens regardless of which event triggered the
cycle. -/
theorem reset_on_failure_counterexample :
    handleEvent DisplayEvent.weatherUpdate true ⟨some 1, true⟩ = ⟨some 1, false⟩ ∧
    (handleEvent DisplayEvent.weatherUpdate true ⟨some 1, true⟩).device ≠ none := by
  constructor
  · rfl
  · decide

/-- C7 (amended): only a failing render+transmit cycle triggered by the
fixed-rate tick resets the connection (handle closed and nulled,
`connected = false`); failing cycles triggered by weather or
configuration updates only log the error, leaving the handle in place
while the transport layer flips `connected` to false. -/
theorem reset_on_tick_failure (s : SessionState) (hc : s.connected = true)
    (hd : s.device ≠ none) :
    handleEvent DisplayEvent.tick true s = ⟨none, false⟩ ∧
    (handleEvent DisplayEvent.weatherUpdate true s).device = s.device ∧
    (handleEvent DisplayEvent.weatherUpdate true s).connected = false ∧
    (handleEvent DisplayEvent.configUpdate true s).device = s.device ∧
    (handleEvent DisplayEvent.configUpdate true s).connected = false := by
  have hg : ¬ (s.connected = false ∨ s.device = none) := by
    rw [hc]; simp [hd]
  refine ⟨?_, ?_, ?_, ?_, ?_⟩ <;>
    simp [handleEvent, updateDisplay, hg, resetDevice]

theorem reset_on_tick_failure_witness :
    handleEvent DisplayEvent.tick true ⟨some 7, true⟩ = ⟨none, false⟩ ∧
    (handleEvent DisplayEvent.weatherUpdate true ⟨some 7, true⟩).device =
      (⟨some 7, true⟩ : SessionState).device ∧
    (handleEvent DisplayEvent.weatherUpdate true ⟨some 7, true⟩).connected = false ∧
    (handleEvent DisplayEvent.configUpdate true ⟨some 7, true⟩).device =
      (⟨some 7, true⟩ : SessionState).device ∧
    (handleEvent DisplayEvent.configUpdate true ⟨some 7, true⟩).connected = false :=
  reset_on_tick_failure ⟨some 7, true⟩ rfl (by decide)

/-! ## Image context and colors (nexus/draw.go) -/

/-- An RGBA color, one byte per channel. -/
structure RGBA where
  r : Nat
  g : Nat
  b : Nat
  a : Nat
deriving DecidableEq

/-- The named-color table `colorMap` (draw.go 194-212). -/
def colorMap : List (String × RGBA) :=
  [("black", ⟨0, 0, 0, 255⟩), ("red", ⟨255, 0, 0, 255⟩), ("green", ⟨0, 255, 0, 255⟩),
    ("blue", ⟨0, 0, 255, 255⟩), ("white", ⟨255, 255, 255, 255⟩),
    ("yellow", ⟨255, 255, 0, 255⟩), ("cyan", ⟨0, 255, 255, 255⟩),
    ("magenta", ⟨255, 0, 255, 255⟩), ("purple", ⟨128, 0, 128, 255⟩),
    ("orange", ⟨255, 165, 0, 255⟩), ("pink", ⟨255, 192, 203, 255⟩),
    ("gray", ⟨128, 128, 128, 255⟩), ("brown", ⟨165, 42, 42, 255⟩),
    ("teal", ⟨0, 128, 128, 255⟩), ("silver", ⟨192, 192, 192, 255⟩)]

/-- Value of one hexadecimal digit as accepted by `fmt.Sscanf` `%02x`
(either letter case). -/
def hexDigitVal (c : Char) : Option Nat :=
  if '0' ≤ c ∧ c ≤ '9' then some (c.toNat - Char.toNat '0')
  else if 'a' ≤ c ∧ c ≤ 'f' then some (c.toNat - Char.toNat 'a' + 10)
  else if 'A' ≤ c ∧ c ≤ 'F' then some (c.toNat - Char.toNat 'A' + 10)
  else none

/-- One `%02x` field: two hexadecimal digits. -/
def hexByte (c1 c2 : Char) : Option Nat :=
  match hexDigitVal c1, hexDigitVal c2 with
  | some h, some l => some (h * 16 + l)
  | _, _ => none

/-- `parseColor` (draw.go 224-239): a 7-character `#RRGGBB` string that
scans as three hex bytes parses to that RGB with alpha 255; otherwise a
named color from `colorMap`; otherwise the supplied default. -/
def parseColor (colorStr : String) (defaultColor : RGBA) : RGBA :=
  match colorStr.toList with
  | ['#', r1, r2, g1, g2, b1, b2] =>
    match hexByte r1 r2, hexByte g1 g2, hexByte b1 b2 with
    | some r, some g, some b => ⟨r, g, b, 255⟩
    | _, _, _ =>
      match colorMap.lookup colorStr with
      | some col => col
      | none => defaultColor
  | _ =>
    match colorMap.lookup colorStr with
    | some col => col
    | none => defaultColor

/-- An image as a function from pixel coordinates to color. -/
def Image : Type := Nat → Nat → RGBA

/-- `image.NewRGBA` yields an all-zero (transparent black) image. -/
def zeroImage : Image := fun _ _ => ⟨0, 0, 0, 0⟩

/-- `CreateImageContext` (draw.go 40-83) as a function of the
background-load outcome (`none` models a failed
`ConvertBackgroundImage`, in which case the `background` frame slice
stays nil) and the animation frame index.  The `if err != nil` block
(draw.go 47-52) builds a solid-fallback image in a block-local
variable `img` that is dropped when the block ends; the function then
creates a fresh zero image and draws `background[frameIndex]` over it
only when at least one background frame is available. -/
def CreateImageContext (bgFrames : Option (List Image)) (bgColor : String)
    (frameIndex : Nat) : Image :=
  let _fallbackImg : Option Image :=
    match bgFrames with
    | none => some (fun _ _ => parseColor bgColor ⟨0, 0, 0, 255⟩)
    | some _ => none
  let img : Image := zeroImage
  let background : List Image := bgFrames.getD []
  if 0 < background.length then background.getD (frameIndex % background.length) zeroImage
  else img

/-- C9 (code behaviour at the failing input): with the background asset
failing to load and the configured background color "red", the claim
expects every background pixel of the returned image to be the parsed
fallback color (255,0,0,255); the returned image's pixel (0,0) is the
zero color (0,0,0,0) instead, because the fallback image built inside
the `if` block of `CreateImageContext` is discarded without ever being
drawn into (or returned as) the result. -/
theorem background_fallback_bug :
    CreateImageContext none ("red") 0 0 0 = ⟨0, 0, 0, 0⟩ ∧
    parseColor ("red") ⟨0, 0, 0, 255⟩ = ⟨255, 0, 0, 255⟩ ∧
    (⟨0, 0, 0, 0⟩ : RGBA) ≠ ⟨255, 0, 0, 255⟩ := by
  refine ⟨rfl, rfl, by decide⟩

end Nexus
